import Mathlib

/-!
Verification of the proxy-api gateway slice: the evaluation-context
builder (`ProxyController.createContext`), the route table of
`ProxyController`, and the audited key-value operations of
`SettingService`, embedded shallowly from
`src/lib/routes/proxy-api/index.ts`.
-/

/-! ## Evaluation-context builder

The request query carries arbitrary string key/value pairs; the builder
only special-cases `remoteAddress` and `environment`, so we model those
two fields explicitly (as `Option String`, `none` meaning absent from the
query) and keep the remaining pairs as an association list. -/

/-- Request query parameters, as seen by `ProxyController.createContext`. -/
structure Query where
  remoteAddress : Option String
  environment : Option String
  other : List (String × String)
  deriving DecidableEq, Repr

/-- The slice of an `ApiUserRequest` read by the controller: the query,
the transport-observed source address `req.ip`, and the authenticated
`ApiUser`'s environment (`req.user.environment`). -/
structure ApiUserRequest where
  query : Query
  ip : String
  userEnvironment : String
  deriving DecidableEq, Repr

/-- The evaluation context handed to the evaluation service. Shape mirrors
`Query`: the builder produces it from the (mutated) query pairs. -/
structure Context where
  remoteAddress : Option String
  environment : Option String
  other : List (String × String)
  deriving DecidableEq, Repr

/-- JavaScript `a || b` on an optional string: `a` wins unless it is
absent (`undefined`) or the empty string, both falsy. -/
def jsOr (a : Option String) (b : String) : String :=
  match a with
  | none => b
  | some s => if s = "" then b else s

/-- Modelled from the spec: the helper `createContext` imported from
`../../proxy/create-context` is not under `src/`. Per §4.2 the builder
starts from the caller-supplied query key/value pairs and no field other
than `remoteAddress` and `environment` is special-cased (both already set
by the caller of this helper), so the helper carries the pairs over
unchanged. -/
def createContextHelper (q : Query) : Context :=
  { remoteAddress := q.remoteAddress
    environment := q.environment
    other := q.other }

namespace ProxyController

/-- Embedding of `ProxyController.createContext`. The source destructures
`const { query } = req` and assigns `query.remoteAddress` and
`query.environment` in place, then calls `createContext(query)`; the
in-place mutation of `req.query` is modelled by returning the updated
request alongside the built context. -/
def createContext (req : ApiUserRequest) : Context × ApiUserRequest :=
  let q := req.query
  let q := { q with remoteAddress := some (jsOr q.remoteAddress req.ip) }
  let q := { q with environment := some req.userEnvironment }
  (createContextHelper q, { req with query := q })

end ProxyController

/-! ## Theorems: evaluation-context builder -/

/-- C1: the environment of the built context is always the authenticated
identity's environment, and the context is entirely independent of any
caller-supplied `environment` query value: changing (or deleting) the
query's `environment` field changes nothing in the result. -/
theorem createContext_environment_from_identity (req : ApiUserRequest) :
    (ProxyController.createContext req).1.environment = some req.userEnvironment ∧
    ∀ e : Option String,
      (ProxyController.createContext
        { req with query := { req.query with environment := e } }).1 =
      (ProxyController.createContext req).1 := by
  constructor
  · rfl
  · intro e
    rfl

/-- C6: the built context's remote address is the caller-supplied query
value when present and non-empty, and the transport-observed source
address `req.ip` when the query value is absent or empty. -/
theorem createContext_remoteAddress (req : ApiUserRequest) :
    (∀ s : String, req.query.remoteAddress = some s → s ≠ "" →
      (ProxyController.createContext req).1.remoteAddress = some s) ∧
    (req.query.remoteAddress = none ∨ req.query.remoteAddress = some "" →
      (ProxyController.createContext req).1.remoteAddress = some req.ip) := by
  constructor
  · intro s hs hne
    simp [ProxyController.createContext, createContextHelper, jsOr, hs, hne]
  · intro h
    rcases h with h | h <;>
      simp [ProxyController.createContext, createContextHelper, jsOr, h]

/-- Witness for C6 at concrete inputs: a non-empty caller-supplied address
is honored, and an absent one falls back to the observed address. -/
theorem createContext_remoteAddress_witness :
    (ProxyController.createContext
      { query := { remoteAddress := some "9.9.9.9", environment := some "spoofed",
                   other := [] },
        ip := "1.2.3.4", userEnvironment := "prod" }).1.remoteAddress =
      some "9.9.9.9" ∧
    (ProxyController.createContext
      { query := { remoteAddress := none, environment := none, other := [] },
        ip := "1.2.3.4", userEnvironment := "prod" }).1.remoteAddress =
      some "1.2.3.4" := by
  constructor
  · exact (createContext_remoteAddress
      { query := { remoteAddress := some "9.9.9.9", environment := some "spoofed",
                   other := [] },
        ip := "1.2.3.4", userEnvironment := "prod" }).1 "9.9.9.9" rfl (by decide)
  · exact (createContext_remoteAddress
      { query := { remoteAddress := none, environment := none, other := [] },
        ip := "1.2.3.4", userEnvironment := "prod" }).2 (Or.inl rfl)

/-- C3: the claim that the builder leaves the caller-supplied query
unchanged fails on the code: `createContext` assigns
`query.remoteAddress` and `query.environment` on `req.query` itself. At
the concrete request below the query differs after the call. -/
theorem createContext_mutates_query :
    (ProxyController.createContext
      { query := { remoteAddress := none, environment := some "spoofed", other := [] },
        ip := "1.2.3.4", userEnvironment := "prod" }).2.query ≠
    { remoteAddress := none, environment := some "spoofed", other := [] } := by
  decide

/-! ## SettingService

`SettingService` orchestrates a `SettingStore` and an `EventStore`. Both
stores are external per §1/§6 of the design; we model them from their §6
interfaces as an association list of settings plus an append-only event
log. Each service method is embedded as a function from store state (and,
for the failure-sensitive claims, a failure pattern for the awaited store
calls) to an outcome recording the final state, whether the call
succeeded, and the trace of store operations attempted in order. -/

/-- Modelled from the spec: the event constructors
`SettingCreatedEvent` / `SettingUpdatedEvent` / `SettingDeletedEvent`
from `../types/events` are not under `src/`; per §3 an audit event is one
of Created/Updated/Deleted tagged with the acting principal (`createdBy`)
and the setting's key (`data: { id }`), and never the value. -/
inductive SettingEvent where
  | created (createdBy : String) (id : String)
  | updated (createdBy : String) (id : String)
  | deleted (createdBy : String) (id : String)
  deriving DecidableEq, Repr

/-- Combined external-store state: the setting rows and the event log. -/
structure Stores where
  settings : List (String × String)
  events : List SettingEvent
  deriving DecidableEq, Repr

/-- Association-list lookup by key, used for `SettingStore.get`/`exists`. -/
def lookupKV (k : String) : List (String × String) → Option String
  | [] => none
  | (k', v) :: rest => if k' = k then some v else lookupKV k rest

/-- Modelled from the spec: `SettingStore.exists(key) -> bool` (§6). -/
def settingStoreExists (s : Stores) (id : String) : Bool :=
  (lookupKV id s.settings).isSome

/-- Modelled from the spec: `SettingStore.get(key) -> value | NotFound`
(§6), `none` standing for NotFound. -/
def settingStoreGet (s : Stores) (id : String) : Option String :=
  lookupKV id s.settings

/-- Modelled from the spec: `SettingStore.insert(key, value)` (§6) adds a
row for a key not yet present. -/
def settingStoreInsert (s : Stores) (id v : String) : Stores :=
  { s with settings := (id, v) :: s.settings }

/-- Modelled from the spec: `SettingStore.updateRow(key, value)` (§6)
replaces the value stored at an existing key. -/
def settingStoreUpdateRow (s : Stores) (id v : String) : Stores :=
  { s with settings := s.settings.map (fun p => if p.1 = id then (id, v) else p) }

/-- Modelled from the spec: `SettingStore.delete(key)` (§6) removes any
row with the given key; deleting an absent key is a no-op. -/
def settingStoreDelete (s : Stores) (id : String) : Stores :=
  { s with settings := s.settings.filter (fun p => p.1 ≠ id) }

/-- Modelled from the spec: `EventStore.store(event)` (§6) appends to the
event log. -/
def eventStoreStore (s : Stores) (e : SettingEvent) : Stores :=
  { s with events := s.events ++ [e] }

/-- One awaited store call, as recorded in an operation trace. -/
inductive StoreOp where
  | opExists (id : String)
  | opGet (id : String)
  | opInsert (id v : String)
  | opUpdateRow (id v : String)
  | opDelete (id : String)
  | opStoreEvent (e : SettingEvent)
  deriving DecidableEq, Repr

/-- Whether a store call writes a setting row (insert/updateRow/delete). -/
def StoreOp.isWrite : StoreOp → Bool
  | .opInsert _ _ => true
  | .opUpdateRow _ _ => true
  | .opDelete _ => true
  | _ => false

/-- Whether a store call emits an audit event. -/
def StoreOp.isEmit : StoreOp → Bool
  | .opStoreEvent _ => true
  | _ => false

/-- Result of running one service method: final store state, whether the
method returned normally (`false` when an awaited call threw, the error
propagating to the caller), and the trace of store calls attempted. -/
structure Outcome where
  state : Stores
  ok : Bool
  trace : List StoreOp
  deriving DecidableEq, Repr

/-- Failure pattern for the awaited store calls of one method: whether the
existence check, the persistence write, or the event emission throws. -/
structure FailSpec where
  failCheck : Bool
  failWrite : Bool
  failEmit : Bool
  deriving DecidableEq, Repr

namespace SettingService

/-- Embedding of `SettingService.get`: a single awaited
`settingStore.get(id)`; no other store call is made. -/
def getRun (s : Stores) (id : String) : Option String × Outcome :=
  (settingStoreGet s id, { state := s, ok := true, trace := [StoreOp.opGet id] })

/-- Embedding of `SettingService.insert` under a failure pattern: check
existence; on an existing key update the row then store an Updated event,
otherwise insert the row then store a Created event; a throwing awaited
call stops the method there with the state reached so far. -/
def insertRun (f : FailSpec) (s : Stores) (id v createdBy : String) : Outcome :=
  if f.failCheck then
    { state := s, ok := false, trace := [StoreOp.opExists id] }
  else if settingStoreExists s id then
    if f.failWrite then
      { state := s, ok := false,
        trace := [StoreOp.opExists id, StoreOp.opUpdateRow id v] }
    else
      let s1 := settingStoreUpdateRow s id v
      let e := SettingEvent.updated createdBy id
      { state := if f.failEmit then s1 else eventStoreStore s1 e,
        ok := !f.failEmit,
        trace := [StoreOp.opExists id, StoreOp.opUpdateRow id v,
                  StoreOp.opStoreEvent e] }
  else
    if f.failWrite then
      { state := s, ok := false,
        trace := [StoreOp.opExists id, StoreOp.opInsert id v] }
    else
      let s1 := settingStoreInsert s id v
      let e := SettingEvent.created createdBy id
      { state := if f.failEmit then s1 else eventStoreStore s1 e,
        ok := !f.failEmit,
        trace := [StoreOp.opExists id, StoreOp.opInsert id v,
                  StoreOp.opStoreEvent e] }

/-- Embedding of `SettingService.delete` under a failure pattern: delete
the row unconditionally, then store a Deleted event. -/
def deleteRun (f : FailSpec) (s : Stores) (id createdBy : String) : Outcome :=
  if f.failWrite then
    { state := s, ok := false, trace := [StoreOp.opDelete id] }
  else
    let s1 := settingStoreDelete s id
    let e := SettingEvent.deleted createdBy id
    { state := if f.failEmit then s1 else eventStoreStore s1 e,
      ok := !f.failEmit,
      trace := [StoreOp.opDelete id, StoreOp.opStoreEvent e] }

/-- The failure-free run of `insert`: every awaited call succeeds. -/
def insert (s : Stores) (id v createdBy : String) : Stores :=
  (insertRun ⟨false, false, false⟩ s id v createdBy).state

/-- The failure-free run of `delete`: every awaited call succeeds. -/
def delete (s : Stores) (id createdBy : String) : Stores :=
  (deleteRun ⟨false, false, false⟩ s id createdBy).state

end SettingService

/-! ## Theorems: SettingService -/

/-- Key lookup after an update-in-place of one row: the looked-up value
becomes `v` exactly when the key was present. -/
theorem lookupKV_update (k v : String) (l : List (String × String)) :
    lookupKV k (l.map (fun p => if p.1 = k then (k, v) else p)) =
    (lookupKV k l).map (fun _ => v) := by
  induction l with
  | nil => rfl
  | cons hd tl ih =>
    obtain ⟨k', w⟩ := hd
    by_cases h : k' = k
    · show lookupKV k ((if k' = k then (k, v) else (k', w)) ::
          tl.map (fun p => if p.1 = k then (k, v) else p)) =
        Option.map (fun _ => v) (lookupKV k ((k', w) :: tl))
      rw [if_pos h]
      subst h
      simp [lookupKV]
    · show lookupKV k ((if k' = k then (k, v) else (k', w)) ::
          tl.map (fun p => if p.1 = k then (k, v) else p)) =
        Option.map (fun _ => v) (lookupKV k ((k', w) :: tl))
      rw [if_neg h]
      simp [lookupKV, h, ih]

/-- C2: `insert` checks existence first (the first store call is
`exists(k)`); on an existing key it appends exactly one Updated event
tagged with the key and the principal, otherwise exactly one Created
event of the same shape; the appended event is independent of the value;
and a subsequent `get(k)` returns the value just written. -/
theorem insert_checks_then_writes_and_audits (s : Stores) (k v p : String) :
    (SettingService.insertRun ⟨false, false, false⟩ s k v p).trace.head? =
      some (StoreOp.opExists k) ∧
    (settingStoreExists s k = true →
      (SettingService.insert s k v p).events =
        s.events ++ [SettingEvent.updated p k]) ∧
    (settingStoreExists s k = false →
      (SettingService.insert s k v p).events =
        s.events ++ [SettingEvent.created p k]) ∧
    settingStoreGet (SettingService.insert s k v p) k = some v ∧
    (∀ v' : String,
      (SettingService.insert s k v p).events =
        (SettingService.insert s k v' p).events) := by
  cases hex : settingStoreExists s k with
  | true =>
    refine ⟨?_, ?_, ?_, ?_, ?_⟩
    · simp [SettingService.insertRun, hex]
    · intro _
      simp [SettingService.insert, SettingService.insertRun, hex, eventStoreStore,
        settingStoreUpdateRow]
    · intro h
      simp [hex] at h
    · have hsome : (lookupKV k s.settings).isSome = true := hex
      obtain ⟨w, hw⟩ := Option.isSome_iff_exists.mp hsome
      simp [SettingService.insert, SettingService.insertRun, hex, eventStoreStore,
        settingStoreUpdateRow, settingStoreGet, lookupKV_update, hw]
    · intro v'
      simp [SettingService.insert, SettingService.insertRun, hex, eventStoreStore,
        settingStoreUpdateRow]
  | false =>
    refine ⟨?_, ?_, ?_, ?_, ?_⟩
    · simp [SettingService.insertRun, hex]
    · intro h
      simp [hex] at h
    · intro _
      simp [SettingService.insert, SettingService.insertRun, hex, eventStoreStore,
        settingStoreInsert]
    · simp [SettingService.insert, SettingService.insertRun, hex, eventStoreStore,
        settingStoreInsert, settingStoreGet, lookupKV]
    · intro v'
      simp [SettingService.insert, SettingService.insertRun, hex, eventStoreStore,
        settingStoreInsert]

/-- Witness for C2 at concrete stores: updating an existing key `"a"`
appends one Updated event and `get` returns the new value; inserting into
an empty store appends one Created event and `get` returns the value. -/
theorem insert_checks_then_writes_and_audits_witness :
    ((SettingService.insert ⟨[("a", "1")], []⟩ "a" "2" "alice").events =
        [SettingEvent.updated "alice" "a"] ∧
      settingStoreGet (SettingService.insert ⟨[("a", "1")], []⟩ "a" "2" "alice") "a" =
        some "2") ∧
    ((SettingService.insert ⟨[], []⟩ "b" "7" "bob").events =
        [SettingEvent.created "bob" "b"] ∧
      settingStoreGet (SettingService.insert ⟨[], []⟩ "b" "7" "bob") "b" =
        some "7") := by
  refine ⟨⟨?_, ?_⟩, ⟨?_, ?_⟩⟩
  · exact (insert_checks_then_writes_and_audits ⟨[("a", "1")], []⟩ "a" "2" "alice").2.1
      (by decide)
  · exact (insert_checks_then_writes_and_audits ⟨[("a", "1")], []⟩ "a" "2" "alice").2.2.2.1
  · exact (insert_checks_then_writes_and_audits ⟨[], []⟩ "b" "7" "bob").2.2.1
      (by decide)
  · exact (insert_checks_then_writes_and_audits ⟨[], []⟩ "b" "7" "bob").2.2.2.1

/-- C5: `delete` issues exactly the two store calls delete-then-emit (so
there is no existence check), appends exactly one Deleted event tagged
with the key and the principal for every prior store state (whether or
not the key existed), and returns without error. -/
theorem delete_unconditional_single_event (s : Stores) (k p : String) :
    (SettingService.deleteRun ⟨false, false, false⟩ s k p).trace =
      [StoreOp.opDelete k, StoreOp.opStoreEvent (SettingEvent.deleted p k)] ∧
    (SettingService.delete s k p).events =
      s.events ++ [SettingEvent.deleted p k] ∧
    (SettingService.deleteRun ⟨false, false, false⟩ s k p).ok = true := by
  refine ⟨rfl, ?_, rfl⟩
  simp [SettingService.delete, SettingService.deleteRun, eventStoreStore,
    settingStoreDelete]

/-- C9: `get` is a pure read: the store state (settings and event log) is
returned unchanged, and the single store call in its trace is neither a
write nor an event emission. -/
theorem get_is_pure_read (s : Stores) (k : String) :
    (SettingService.getRun s k).2.state = s ∧
    ((SettingService.getRun s k).2.trace.all
      (fun op => !op.isWrite && !op.isEmit)) = true := by
  exact ⟨rfl, rfl⟩

/-- Every audit-event emission in a trace is strictly preceded by a
persistence write: `true` when each `opStoreEvent` has some write op
somewhere before it in the list. -/
def emitAfterWrite : List StoreOp → Bool
  | [] => true
  | op :: rest =>
    if op.isWrite then true
    else if op.isEmit then false
    else emitAfterWrite rest

/-- C4: under every failure pattern, in both `insert` and `delete` the
persistence write precedes the event emission in the executed call trace,
and when the persistence write throws no event is emitted and the event
log is unchanged. -/
theorem write_precedes_event_emission (f : FailSpec) (s : Stores) (k v p : String) :
    emitAfterWrite (SettingService.insertRun f s k v p).trace = true ∧
    emitAfterWrite (SettingService.deleteRun f s k p).trace = true ∧
    (f.failWrite = true →
      ((SettingService.insertRun f s k v p).trace.all (fun op => !op.isEmit)) = true ∧
      (SettingService.insertRun f s k v p).state.events = s.events ∧
      ((SettingService.deleteRun f s k p).trace.all (fun op => !op.isEmit)) = true ∧
      (SettingService.deleteRun f s k p).state.events = s.events) := by
  obtain ⟨fc, fw, fe⟩ := f
  cases fc <;> cases fw <;> cases fe <;>
    cases hex : settingStoreExists s k <;>
      simp [SettingService.insertRun, SettingService.deleteRun, hex,
        emitAfterWrite, StoreOp.isWrite, StoreOp.isEmit, eventStoreStore,
        settingStoreUpdateRow, settingStoreInsert, settingStoreDelete]

/-- Witness for C4 at a concrete failure pattern and store: when the
write throws, neither operation emits an event and the log stays empty. -/
theorem write_precedes_event_emission_witness :
    emitAfterWrite
      (SettingService.insertRun ⟨false, true, false⟩ ⟨[], []⟩ "a" "1" "p").trace = true ∧
    ((SettingService.insertRun ⟨false, true, false⟩ ⟨[], []⟩ "a" "1" "p").trace.all
      (fun op => !op.isEmit)) = true ∧
    (SettingService.deleteRun ⟨false, true, false⟩ ⟨[], []⟩ "a" "p").state.events =
      ([] : List SettingEvent) := by
  refine ⟨(write_precedes_event_emission ⟨false, true, false⟩ ⟨[], []⟩ "a" "1" "p").1,
    ((write_precedes_event_emission ⟨false, true, false⟩ ⟨[], []⟩ "a" "1" "p").2.2 rfl).1,
    ((write_precedes_event_emission ⟨false, true, false⟩ ⟨[], []⟩ "a" "1" "p").2.2 rfl).2.2.2⟩

/-- C10: when the existence check at the start of `insert` throws, the
method performs no persistence write and no event emission, the store
state (settings and event log) is unchanged, and the error propagates
(the call does not return normally). -/
theorem insert_check_failure_no_effect (f : FailSpec) (s : Stores) (k v p : String)
    (h : f.failCheck = true) :
    (SettingService.insertRun f s k v p).state = s ∧
    (SettingService.insertRun f s k v p).ok = false ∧
    ((SettingService.insertRun f s k v p).trace.all
      (fun op => !op.isWrite && !op.isEmit)) = true := by
  simp [SettingService.insertRun, h, StoreOp.isWrite, StoreOp.isEmit]

/-- Witness for C10 at a concrete failing check over a one-row store. -/
theorem insert_check_failure_no_effect_witness :
    (SettingService.insertRun ⟨true, false, false⟩ ⟨[("a", "1")], []⟩ "a" "2" "p").state =
      ⟨[("a", "1")], []⟩ ∧
    (SettingService.insertRun ⟨true, false, false⟩ ⟨[("a", "1")], []⟩ "a" "2" "p").ok =
      false ∧
    ((SettingService.insertRun ⟨true, false, false⟩
        ⟨[("a", "1")], []⟩ "a" "2" "p").trace.all
      (fun op => !op.isWrite && !op.isEmit)) = true :=
  insert_check_failure_no_effect ⟨true, false, false⟩ ⟨[("a", "1")], []⟩ "a" "2" "p" rfl

/-! ## Gateway route table

The constructor of `ProxyController` declares a fixed list of routes via
`this.route({...})`; we embed it as a list in declaration order, with the
path strings exactly as written in the source (the feature-listing and
write-stub routes use the path `''` relative to the mounted prefix). Each
handler is embedded as a function from the request to the HTTP response
together with the list of collaborator-service calls it makes. -/

/-- HTTP request method, for the two methods the table uses. -/
inductive Method where
  | get
  | post
  deriving DecidableEq, Repr

/-- The handlers wired into the table by the constructor. -/
inductive HandlerKind where
  | getProxyFeatures
  | endpointNotImplemented
  | registerProxyMetrics
  | registerProxyClient
  deriving DecidableEq, Repr

/-- An inbound gateway request: the controller-visible request slice plus
the request body (treated as one string, its schema being owned by
the validation middleware). -/
structure GatewayRequest where
  inner : ApiUserRequest
  body : String
  deriving DecidableEq, Repr

/-- Response body of a gateway handler: empty (`res.sendStatus`), a JSON
`{ message }` object, or the validated `{ toggles }` payload. -/
inductive ResponseBody where
  | empty
  | message (s : String)
  | togglesBody (ts : List String)
  deriving DecidableEq, Repr

/-- An HTTP response as produced by a handler. -/
structure HttpResponse where
  status : Nat
  body : ResponseBody
  deriving DecidableEq, Repr

/-- One call to a collaborator service (proxy evaluation or metrics),
recording the arguments the source passes: the user (represented by its
environment), and the context or payload plus observed address. -/
inductive ServiceCall where
  | getFeatures (userEnvironment : String) (ctx : Context)
  | registerMetrics (userEnvironment : String) (payload : String) (ip : String)
  deriving DecidableEq, Repr

/-- The route table declared in `ProxyController`'s constructor, in
declaration order. -/
def routeTable : List (Method × String × HandlerKind) :=
  [ (Method.get, "", HandlerKind.getProxyFeatures),
    (Method.post, "", HandlerKind.endpointNotImplemented),
    (Method.get, "/client/features", HandlerKind.endpointNotImplemented),
    (Method.post, "/client/metrics", HandlerKind.registerProxyMetrics),
    (Method.post, "/client/register", HandlerKind.registerProxyClient),
    (Method.get, "/health", HandlerKind.endpointNotImplemented),
    (Method.get, "/internal-backstage/prometheus", HandlerKind.endpointNotImplemented) ]

/-- Route dispatch: the first table entry matching the method and path. -/
def dispatch (m : Method) (path : String) : Option HandlerKind :=
  (routeTable.find? (fun r => r.1 == m && r.2.1 == path)).map (fun r => r.2.2)

namespace ProxyController

/-- Embedding of `ProxyController.endpointNotImplemented`: a fixed 405
response with a fixed message, reading nothing from the request and
calling no collaborator. -/
def endpointNotImplemented (_req : GatewayRequest) :
    HttpResponse × List ServiceCall :=
  ({ status := 405,
     body := ResponseBody.message "The frontend API does not support this endpoint." },
   [])

/-- Embedding of `ProxyController.registerProxyClient`: `res.sendStatus(200)`
with no processing of the body and no collaborator call. -/
def registerProxyClient (_req : GatewayRequest) :
    HttpResponse × List ServiceCall :=
  ({ status := 200, body := ResponseBody.empty }, [])

/-- Embedding of `ProxyController.registerProxyMetrics`: forwards the user,
the body, and `req.ip` to the metrics service, then `res.sendStatus(200)`. -/
def registerProxyMetrics (req : GatewayRequest) :
    HttpResponse × List ServiceCall :=
  ({ status := 200, body := ResponseBody.empty },
   [ServiceCall.registerMetrics req.inner.userEnvironment req.body req.inner.ip])

/-- Embedding of `ProxyController.getProxyFeatures`, parametrised by the
external evaluation service `svc`: builds the context, fetches the
toggles, and responds 200 with the validated `{ toggles }` body. -/
def getProxyFeatures (svc : String → Context → List String)
    (req : GatewayRequest) : HttpResponse × List ServiceCall :=
  let ctx := (ProxyController.createContext req.inner).1
  ({ status := 200, body := ResponseBody.togglesBody (svc req.inner.userEnvironment ctx) },
   [ServiceCall.getFeatures req.inner.userEnvironment ctx])

end ProxyController

/-- Run the handler a table entry names on a request, with the external
evaluation service `svc` supplied as a parameter. -/
def runHandler (svc : String → Context → List String) :
    HandlerKind → GatewayRequest → HttpResponse × List ServiceCall
  | HandlerKind.getProxyFeatures => ProxyController.getProxyFeatures svc
  | HandlerKind.endpointNotImplemented => ProxyController.endpointNotImplemented
  | HandlerKind.registerProxyMetrics => ProxyController.registerProxyMetrics
  | HandlerKind.registerProxyClient => ProxyController.registerProxyClient

/-! ## Theorems: gateway route table -/

/-- C7: each of POST `/`, GET `/client/features`, GET `/health` and GET
`/internal-backstage/prometheus` dispatches to the not-implemented stub,
which responds 405 with a non-empty message body whose content is the
same for every request body and query. -/
theorem stub_endpoints_return_405 (svc : String → Context → List String)
    (req req' : GatewayRequest) :
    dispatch Method.post "" = some HandlerKind.endpointNotImplemented ∧
    dispatch Method.get "/client/features" = some HandlerKind.endpointNotImplemented ∧
    dispatch Method.get "/health" = some HandlerKind.endpointNotImplemented ∧
    dispatch Method.get "/internal-backstage/prometheus" =
      some HandlerKind.endpointNotImplemented ∧
    (runHandler svc HandlerKind.endpointNotImplemented req).1.status = 405 ∧
    (runHandler svc HandlerKind.endpointNotImplemented req).1.body =
      ResponseBody.message "The frontend API does not support this endpoint." ∧
    "The frontend API does not support this endpoint." ≠ "" ∧
    runHandler svc HandlerKind.endpointNotImplemented req =
      runHandler svc HandlerKind.endpointNotImplemented req' := by
  refine ⟨rfl, rfl, rfl, rfl, rfl, rfl, by decide, rfl⟩

/-- C8: POST `/client/register` dispatches to `registerProxyClient`, which
responds 200 with an empty body and makes no collaborator call for any
request, so neither store state nor any event log can be touched. -/
theorem registerProxyClient_is_inert (svc : String → Context → List String)
    (req : GatewayRequest) :
    dispatch Method.post "/client/register" = some HandlerKind.registerProxyClient ∧
    (runHandler svc HandlerKind.registerProxyClient req).1 =
      { status := 200, body := ResponseBody.empty } ∧
    (runHandler svc HandlerKind.registerProxyClient req).2 = [] := by
  exact ⟨rfl, rfl, rfl⟩
